import Mathlib

/-!
Verification of the segment grouping / summarization / classification /
filtering core of the Miles_Stone_Interactive_Notes pipeline.

The Python sources embedded here are
`src/grouping/group_segments.py`, `src/classification/segment_classifier.py`
and `src/filtering/filter_segments.py`.  Python strings are modelled as Lean
`String`s and the relevant `str` methods (`strip`, `upper`, `lower`,
`split`, slicing, substring containment, `replace(c, '')`) are re-defined
below over the underlying character lists, using the ASCII simple case
mapping of `Char.toUpper` / `Char.toLower` (the texts handled by the
pipeline are ASCII).  The external Ollama oracle is modelled by an outcome
datatype: a call either returns HTTP 200 with a generated-text payload,
fails with a non-2xx status, or raises (transport error, timeout, or a
malformed JSON body whose parsing raises inside the `try` block).
-/

namespace MilesStone

/-- Python `str.isspace` characters that occur in the pipeline texts:
space, tab, newline, carriage return, vertical tab, form feed. -/
def pyIsSpace (c : Char) : Bool :=
  c = ' ' || c = Char.ofNat 9 || c = Char.ofNat 10 || c = Char.ofNat 13 ||
  c = Char.ofNat 11 || c = Char.ofNat 12

/-- Python `str.strip()`: drop leading and trailing whitespace. -/
def pyStrip (s : String) : String :=
  String.mk (((s.data.dropWhile pyIsSpace).reverse.dropWhile pyIsSpace).reverse)

/-- Python `str.upper()` (ASCII simple case mapping). -/
def pyUpper (s : String) : String :=
  String.mk (s.data.map Char.toUpper)

/-- Python `str.lower()` (ASCII simple case mapping). -/
def pyLower (s : String) : String :=
  String.mk (s.data.map Char.toLower)

/-- Contiguous-sublist test on character lists, used to model Python's
`needle in hay` substring operator. -/
def listContains (needle : List Char) : List Char → Bool
  | [] => needle.isEmpty
  | c :: rest => needle.isPrefixOf (c :: rest) || listContains needle rest

/-- Python `needle in hay` on strings. -/
def pyContains (needle hay : String) : Bool :=
  listContains needle.data hay.data

/-- Python `s.replace(c, '')` for a single character `c`. -/
def removeChar (c : Char) (s : String) : String :=
  String.mk (s.data.filter (fun x => x ≠ c))

/-- Python `s[:n]` on strings (slicing by characters). -/
def pyTake (s : String) (n : Nat) : String :=
  String.mk (s.data.take n)

/-- Worker for `pySplit`: accumulates the current word in reverse. -/
def wordsAux : List Char → List Char → List (List Char)
  | [], acc => if acc.isEmpty then [] else [acc.reverse]
  | c :: rest, acc =>
    if pyIsSpace c then
      if acc.isEmpty then wordsAux rest [] else acc.reverse :: wordsAux rest []
    else wordsAux rest (c :: acc)

/-- Python `str.split()` with no argument: split on whitespace runs,
discarding empty pieces. -/
def pySplit (s : String) : List String :=
  (wordsAux s.data []).map String.mk

/-- Python `len(s.split())`: the number of whitespace-separated words. -/
def countWords (s : String) : Nat :=
  (pySplit s).length

/-- Python `sep.join(pieces)`. -/
def joinWith (sep : String) : List String → String
  | [] => ""
  | [s] => s
  | s :: rest => s ++ sep ++ joinWith sep rest

/-- A transcript segment: `{start, end, text, label}` (the Python dict).
The `end` key is called `endTime` because `end` is a Lean keyword. -/
structure Segment where
  start : String
  endTime : String
  text : String
  label : String
deriving DecidableEq, Inhabited, Repr

/-- An emitted group record, exactly the dict built by
`group_segments_with_llm`. -/
structure Group where
  group_id : Nat
  group_start_time : String
  group_end_time : String
  group_summary : String
  group_segments : List Segment
deriving DecidableEq, Repr

/-- Outcome of one oracle round-trip (`requests.post` to Ollama):
`ok body` is HTTP 200 with `response` field `body`; `httpError` is any
non-200 status; `exn` is a raised exception (timeout, transport error, or
a body whose JSON decoding raises). -/
inductive OracleOutcome where
  | ok (body : String)
  | httpError
  | exn
deriving DecidableEq, Repr

/-- `check_segment_belongs_to_group` (group_segments.py lines 16-67),
abstracted over the oracle outcome of its single request: on HTTP 200 it
answers `'YES' in response.strip().upper()`; on a non-200 status or any
exception it returns `True`. -/
def check_segment_belongs_to_group (r : OracleOutcome) : Bool :=
  match r with
  | OracleOutcome.ok body => pyContains "YES" (pyUpper (pyStrip body))
  | OracleOutcome.httpError => true
  | OracleOutcome.exn => true

/-- The `combined_text` local of `summarize_group` (line 87):
`'\n'.join(f"[{seg['start']} - {seg['end']}] {seg['text']}")`. -/
def combined_text (segments : List Segment) : String :=
  joinWith (String.mk [Char.ofNat 10])
    (segments.map (fun seg =>
      "[" ++ seg.start ++ " - " ++ seg.endTime ++ "] " ++ seg.text))

/-- `summarize_group` (group_segments.py lines 70-125), abstracted over the
oracle outcome of its single request.  A single-segment group returns its
text before any request is issued, so the result is independent of `r`
there; otherwise: HTTP 200 returns the stripped payload, a non-200 status
returns the fixed failure string, and an exception returns
`"Section covering: " + combined_text[:100] + "..."`. -/
def summarize_group (segments : List Segment) (objective : String)
    (r : OracleOutcome) : String :=
  if segments.length = 1 then segments.headI.text
  else
    match r with
    | OracleOutcome.ok body => pyStrip body
    | OracleOutcome.httpError => "Summary generation failed."
    | OracleOutcome.exn =>
        "Section covering: " ++ pyTake (combined_text segments) 100 ++ "..."

/-- The group dict appended to `grouped_data` at each emission point
(group_segments.py lines 157-163, 179-185, 194-200): times are taken from
the first and last segment of the group being closed, the summary from the
summarization call made at that moment. -/
def mkGroup (gid : Nat) (current : List Segment) (objective : String)
    (r : OracleOutcome) : Group :=
  ⟨gid, (current.headI).start, (current.getLastD default).endTime,
    summarize_group current objective r, current⟩

/-- The `for i in range(1, len(segments))` loop of
`group_segments_with_llm` (lines 150-200) plus the terminal flush
(lines 192-200).  `belongsAns i` is the boolean that
`check_segment_belongs_to_group` returns if it is consulted at loop index
`i` (this covers every possible oracle behaviour, including
nondeterministic ones, since each index is consulted at most once);
`sumAns g` is the oracle outcome of the summarization request made for the
group emitted with id `g`. -/
def groupLoop (objective : String) (belongsAns : Nat → Bool)
    (sumAns : Nat → OracleOutcome) (maxSeg : Nat) :
    List Segment → Nat → List Segment → Nat → List Group
  | [], _, current, gid =>
      if current.isEmpty then [] else [mkGroup gid current objective (sumAns gid)]
  | next :: rest, i, current, gid =>
      if maxSeg ≤ current.length then
        mkGroup gid current objective (sumAns gid) ::
          groupLoop objective belongsAns sumAns maxSeg rest (i + 1) [next] (gid + 1)
      else if belongsAns i then
        groupLoop objective belongsAns sumAns maxSeg rest (i + 1)
          (current ++ [next]) gid
      else
        mkGroup gid current objective (sumAns gid) ::
          groupLoop objective belongsAns sumAns maxSeg rest (i + 1) [next] (gid + 1)

/-- `group_segments_with_llm` (group_segments.py lines 128-202): empty
input returns `[]` immediately; otherwise the scan starts with
`current_group = [segments[0]]`, `group_id = 0`, at loop index 1. -/
def group_segments_with_llm (segments : List Segment) (objective : String)
    (belongsAns : Nat → Bool) (sumAns : Nat → OracleOutcome)
    (maxSeg : Nat) : List Group :=
  match segments with
  | [] => []
  | s0 :: rest => groupLoop objective belongsAns sumAns maxSeg rest 1 [s0] 0

/-- Concatenation of the `group_segments` lists of the emitted groups in
emission order. -/
def joinedSegs : List Group → List Segment
  | [] => []
  | g :: gs => g.group_segments ++ joinedSegs gs

/-- The fixed 13-label set of segment_classifier.py (lines 10-24). -/
def CLASSIFICATION_LABELS : List String :=
  ["introduction", "explanation", "demonstration", "code_example", "tip",
   "warning", "summary", "transition", "greeting", "farewell", "filler",
   "noise", "off_topic"]

/-- The label normalization of `classify_with_ollama` (lines 62-65):
`response.strip().lower()`, then remove every `"` and every `'`, then
strip again.  `Char.ofNat 34` is the double quote, `Char.ofNat 39` the
single quote. -/
def normalizeLabel (body : String) : String :=
  pyStrip (removeChar (Char.ofNat 39) (removeChar (Char.ofNat 34) (pyLower (pyStrip body))))

/-- `classify_with_ollama` (segment_classifier.py lines 27-84), abstracted
over the oracle outcome: on HTTP 200 the normalized response is accepted
if it is exactly a valid label, else the first valid label related to it
by substring containment (either direction) is chosen, else
`"explanation"`; a non-200 status or an exception yields
`"explanation"`. -/
def classify_with_ollama (r : OracleOutcome) : String :=
  match r with
  | OracleOutcome.ok body =>
      if normalizeLabel body ∈ CLASSIFICATION_LABELS then normalizeLabel body
      else
        match CLASSIFICATION_LABELS.find? (fun valid =>
            pyContains valid (normalizeLabel body) ||
            pyContains (normalizeLabel body) valid) with
        | some l => l
        | none => "explanation"
  | OracleOutcome.httpError => "explanation"
  | OracleOutcome.exn => "explanation"

/-- Outcome of the single batch request of `classify_batch_with_ollama`:
`parsed labels` is HTTP 200 whose stripped payload `json.loads` to a list
of strings `labels`; `failed` is everything else (non-200 status,
exception, or an unparseable / non-list / non-string payload). -/
inductive BatchOutcome where
  | parsed (labels : List String)
  | failed
deriving DecidableEq, Repr

/-- `classify_batch_with_ollama` (segment_classifier.py lines 136-188) for
`n` segments, abstracted over the batch request outcome `r` and over the
outcomes `fallback i` of the per-segment `classify_with_ollama` requests
issued when the batch path is not taken: a parsed list of exactly `n`
strings is returned as `[l.lower().strip() for l in labels]` with no
validation; anything else falls back to one-at-a-time classification. -/
def classify_batch_with_ollama (n : Nat) (r : BatchOutcome)
    (fallback : Nat → OracleOutcome) : List String :=
  match r with
  | BatchOutcome.parsed labels =>
      if labels.length = n then labels.map (fun l => pyStrip (pyLower l))
      else (List.range n).map (fun i => classify_with_ollama (fallback i))
  | BatchOutcome.failed =>
      (List.range n).map (fun i => classify_with_ollama (fallback i))

/-- The label set dropped by filtering (filter_segments.py lines 10-16). -/
def IRRELEVANT_LABELS : List String :=
  ["greeting", "farewell", "noise", "filler", "off_topic"]

/-- Python's `string.punctuation`: ASCII 33-47, 58-64, 91-96, 123-126. -/
def isPunct (c : Char) : Bool :=
  (33 ≤ c.toNat && c.toNat ≤ 47) || (58 ≤ c.toNat && c.toNat ≤ 64) ||
  (91 ≤ c.toNat && c.toNat ≤ 96) || (123 ≤ c.toNat && c.toNat ≤ 126)

/-- `normalize_text` (filter_segments.py lines 19-38): lower-case, delete
punctuation, collapse whitespace runs via `' '.join(text.split())`. -/
def normalize_text (text : String) : String :=
  joinWith " " (pySplit (String.mk ((pyLower text).data.filter (fun c => !(isPunct c)))))

/-- `is_duplicate` (filter_segments.py lines 41-62).  The Python function
mutates the `seen_texts` set (adding the normalized text exactly when it
returns `False`); here the updated set is returned alongside the flag. -/
def is_duplicate (segment : Segment) (seen_texts : List String) :
    Bool × List String :=
  let normalized := normalize_text segment.text
  if normalized = "" then (true, seen_texts)
  else if normalized ∈ seen_texts then (true, seen_texts)
  else (false, normalized :: seen_texts)

/-- The per-segment loop of `filter_segments` (lines 90-117): drop empty
trimmed text first, then irrelevant labels, then duplicates; otherwise
keep the segment unchanged. -/
def filterLoop : List Segment → List String → List Segment
  | [], _ => []
  | seg :: rest, seen =>
      if pyStrip seg.text = "" then filterLoop rest seen
      else if pyLower seg.label ∈ IRRELEVANT_LABELS then filterLoop rest seen
      else
        match is_duplicate seg seen with
        | (true, seen1) => filterLoop rest seen1
        | (false, seen1) => seg :: filterLoop rest seen1

/-- `filter_segments` (filter_segments.py lines 65-128), starting from an
empty `seen_texts` set (the statistics and logging do not affect the
returned list and are not modelled). -/
def filter_segments (segments : List Segment) : List Segment :=
  filterLoop segments []

/-- The property the specification states for the boundary decision: the
substring `YES`, matched case-insensitively, appears somewhere in the
(already trimmed) oracle response `s`. -/
def ContainsYesCI (s : String) : Prop :=
  ∃ y : List Char, y <:+: s.data ∧ y.map Char.toUpper = "YES".data

/-- Shape of a list of segments as `filter_segments` leaves it, relative
to an already-seen set of normalized texts: every segment has non-empty
trimmed text, a label outside the irrelevant set, and a fresh non-empty
normalized text.  A list of this shape passes a second filtering run
untouched. -/
inductive Clean : List String → List Segment → Prop
  | nil (seen : List String) : Clean seen []
  | cons (seen : List String) (seg : Segment) (rest : List Segment)
      (h1 : pyStrip seg.text ≠ "")
      (h2 : pyLower seg.label ∉ IRRELEVANT_LABELS)
      (h3 : normalize_text seg.text ≠ "")
      (h4 : normalize_text seg.text ∉ seen)
      (h5 : Clean (normalize_text seg.text :: seen) rest) :
      Clean seen (seg :: rest)

/-- `n` copies of the word `w` followed by single spaces. -/
def repeatWord : Nat → List Char
  | 0 => []
  | Nat.succ n => 'w' :: ' ' :: repeatWord n

/-- A 301-word string: 300 copies of `w ` followed by a final `w`. -/
def w301 : String := String.mk (repeatWord 300 ++ ['w'])

/-- A concrete segment used to instantiate witness statements. -/
def segA : Segment := ⟨"0:00:00", "0:00:05", "hello world", "explanation"⟩

/-- A second concrete segment used to instantiate witness statements. -/
def segB : Segment := ⟨"0:00:05", "0:00:10", "more about recursion", "explanation"⟩

/-- The single group emitted by running the grouper on `[segA]`. -/
def gW : Group := ⟨0, "0:00:00", "0:00:05", "hello world", [segA]⟩

/-- `listContains` decides contiguous-sublist containment. -/
theorem listContains_iff (needle hay : List Char) :
    listContains needle hay = true ↔ needle <:+: hay := by
  induction hay with
  | nil => simp [listContains]
  | cons c rest ih =>
      simp [listContains, ih, List.infix_cons_iff]

/-- Concatenating the emitted groups of the scan loop recovers the open
group followed by the unprocessed input, for every oracle behaviour. -/
theorem groupLoop_joined (objective : String) (belongsAns : Nat → Bool)
    (sumAns : Nat → OracleOutcome) (maxSeg : Nat) :
    ∀ (rest : List Segment) (i : Nat) (current : List Segment) (gid : Nat),
      current ≠ [] →
      joinedSegs (groupLoop objective belongsAns sumAns maxSeg rest i current gid) =
        current ++ rest := by
  intro rest
  induction rest with
  | nil =>
      intro i current gid hne
      cases current with
      | nil => exact absurd rfl hne
      | cons a t => simp [groupLoop, joinedSegs, mkGroup]
  | cons next rest ih =>
      intro i current gid hne
      by_cases hm : maxSeg ≤ current.length
      · rw [groupLoop, if_pos hm, joinedSegs, mkGroup,
          ih (i + 1) [next] (gid + 1) (by simp)]
        simp
      · by_cases hb : belongsAns i = true
        · rw [groupLoop, if_neg hm, if_pos hb,
            ih (i + 1) (current ++ [next]) gid (by simp)]
          simp
        · rw [groupLoop, if_neg hm, if_neg hb, joinedSegs, mkGroup,
            ih (i + 1) [next] (gid + 1) (by simp)]
          simp

/-- Every group emitted by the scan loop keeps between 1 and `maxSeg`
segments, provided the open group does and `1 ≤ maxSeg`. -/
theorem groupLoop_sizes (objective : String) (belongsAns : Nat → Bool)
    (sumAns : Nat → OracleOutcome) (maxSeg : Nat) (hmax : 1 ≤ maxSeg) :
    ∀ (rest : List Segment) (i : Nat) (current : List Segment) (gid : Nat),
      current ≠ [] → current.length ≤ maxSeg →
      ∀ g ∈ groupLoop objective belongsAns sumAns maxSeg rest i current gid,
        1 ≤ g.group_segments.length ∧ g.group_segments.length ≤ maxSeg := by
  intro rest
  induction rest with
  | nil =>
      intro i current gid hne hlen g hg
      cases current with
      | nil => exact absurd rfl hne
      | cons a t =>
          simp only [groupLoop, List.isEmpty_cons, List.mem_singleton,
            if_false, Bool.false_eq_true] at hg
          subst hg
          exact ⟨Nat.succ_le_succ (Nat.zero_le _), hlen⟩
  | cons next rest ih =>
      intro i current gid hne hlen g hg
      by_cases hm : maxSeg ≤ current.length
      · rw [groupLoop, if_pos hm] at hg
        rcases List.mem_cons.mp hg with hg | hg
        · subst hg
          exact ⟨List.length_pos.mpr hne, hlen⟩
        · exact ih (i + 1) [next] (gid + 1) (by simp) (by simpa using hmax) g hg
      · by_cases hb : belongsAns i = true
        · rw [groupLoop, if_neg hm, if_pos hb] at hg
          refine ih (i + 1) (current ++ [next]) gid (by simp) ?_ g hg
          have : current.length < maxSeg := Nat.lt_of_not_le hm
          simpa using this
        · rw [groupLoop, if_neg hm, if_neg hb] at hg
          rcases List.mem_cons.mp hg with hg | hg
          · subst hg
            exact ⟨List.length_pos.mpr hne, hlen⟩
          · exact ih (i + 1) [next] (gid + 1) (by simp) (by simpa using hmax) g hg

/-- The ids of the groups emitted by the scan loop are consecutive,
starting at the id of the open group. -/
theorem groupLoop_ids (objective : String) (belongsAns : Nat → Bool)
    (sumAns : Nat → OracleOutcome) (maxSeg : Nat) :
    ∀ (rest : List Segment) (i : Nat) (current : List Segment) (gid : Nat),
      current ≠ [] →
      (groupLoop objective belongsAns sumAns maxSeg rest i current gid).map Group.group_id =
        List.range' gid (groupLoop objective belongsAns sumAns maxSeg rest i current gid).length := by
  intro rest
  induction rest with
  | nil =>
      intro i current gid hne
      cases current with
      | nil => exact absurd rfl hne
      | cons a t => simp [groupLoop, mkGroup, List.range']
  | cons next rest ih =>
      intro i current gid hne
      by_cases hm : maxSeg ≤ current.length
      · rw [groupLoop, if_pos hm]
        simp only [List.map_cons, List.length_cons, List.range'_succ, mkGroup]
        rw [ih (i + 1) [next] (gid + 1) (by simp)]
      · by_cases hb : belongsAns i = true
        · rw [groupLoop, if_neg hm, if_pos hb]
          exact ih (i + 1) (current ++ [next]) gid (by simp)
        · rw [groupLoop, if_neg hm, if_neg hb]
          simp only [List.map_cons, List.length_cons, List.range'_succ, mkGroup]
          rw [ih (i + 1) [next] (gid + 1) (by simp)]

/-- Every group emitted by the scan loop carries as summary exactly the
result of `summarize_group` on its own segment list, with the
summarization-oracle outcome indexed by its own id. -/
theorem groupLoop_summary (objective : String) (belongsAns : Nat → Bool)
    (sumAns : Nat → OracleOutcome) (maxSeg : Nat) :
    ∀ (rest : List Segment) (i : Nat) (current : List Segment) (gid : Nat),
      ∀ g ∈ groupLoop objective belongsAns sumAns maxSeg rest i current gid,
        g.group_summary = summarize_group g.group_segments objective (sumAns g.group_id) := by
  intro rest
  induction rest with
  | nil =>
      intro i current gid g hg
      rw [groupLoop] at hg
      by_cases he : current.isEmpty
      · rw [if_pos he] at hg
        exact absurd hg (List.not_mem_nil g)
      · rw [if_neg he] at hg
        rw [List.mem_singleton.mp hg]
        rfl
  | cons next rest ih =>
      intro i current gid g hg
      by_cases hm : maxSeg ≤ current.length
      · rw [groupLoop, if_pos hm] at hg
        rcases List.mem_cons.mp hg with hg | hg
        · rw [hg]
          rfl
        · exact ih (i + 1) [next] (gid + 1) g hg
      · by_cases hb : belongsAns i = true
        · rw [groupLoop, if_neg hm, if_pos hb] at hg
          exact ih (i + 1) (current ++ [next]) gid g hg
        · rw [groupLoop, if_neg hm, if_neg hb] at hg
          rcases List.mem_cons.mp hg with hg | hg
          · rw [hg]
            rfl
          · exact ih (i + 1) [next] (gid + 1) g hg

/-- The output of the filtering loop is `Clean` with respect to the seen
set the loop started from. -/
theorem filterLoop_clean : ∀ (segments : List Segment) (seen : List String),
    Clean seen (filterLoop segments seen) := by
  intro segments
  induction segments with
  | nil => intro seen; exact Clean.nil seen
  | cons seg rest ih =>
      intro seen
      rw [filterLoop]
      by_cases h1 : pyStrip seg.text = ""
      · rw [if_pos h1]; exact ih seen
      · rw [if_neg h1]
        by_cases h2 : pyLower seg.label ∈ IRRELEVANT_LABELS
        · rw [if_pos h2]; exact ih seen
        · rw [if_neg h2]
          by_cases h3 : normalize_text seg.text = ""
          · have hd : is_duplicate seg seen = (true, seen) := by
              simp [is_duplicate, h3]
            rw [hd]
            exact ih seen
          · by_cases h4 : normalize_text seg.text ∈ seen
            · have hd : is_duplicate seg seen = (true, seen) := by
                simp [is_duplicate, h3, h4]
              rw [hd]
              exact ih seen
            · have hd : is_duplicate seg seen =
                  (false, normalize_text seg.text :: seen) := by
                simp [is_duplicate, h3, h4]
              rw [hd]
              exact Clean.cons seen seg _ h1 h2 h3 h4 (ih _)

/-- A `Clean` list passes the filtering loop untouched. -/
theorem filterLoop_of_clean : ∀ (seen : List String) (l : List Segment),
    Clean seen l → filterLoop l seen = l := by
  intro seen l h
  induction h with
  | nil seen => rfl
  | cons seen seg rest h1 h2 h3 h4 _ ih =>
      rw [filterLoop, if_neg h1, if_neg h2]
      have hd : is_duplicate seg seen =
          (false, normalize_text seg.text :: seen) := by
        simp [is_duplicate, h3, h4]
      rw [hd]
      show seg :: filterLoop rest (normalize_text seg.text :: seen) = seg :: rest
      rw [ih]

/-- The one-at-a-time classifier only ever produces labels of the fixed
13-label set, whatever the oracle does. -/
theorem classify_with_ollama_mem (r : OracleOutcome) :
    classify_with_ollama r ∈ CLASSIFICATION_LABELS := by
  cases r with
  | ok body =>
      rw [classify_with_ollama]
      by_cases h : normalizeLabel body ∈ CLASSIFICATION_LABELS
      · rw [if_pos h]; exact h
      · rw [if_neg h]
        cases hf : CLASSIFICATION_LABELS.find? (fun valid =>
            pyContains valid (normalizeLabel body) ||
            pyContains (normalizeLabel body) valid) with
        | some l => exact List.mem_of_find?_eq_some hf
        | none => decide
  | httpError => decide
  | exn => decide

/-- Claim C1: for every filtered input sequence `S` of segments, running
`group_segments_with_llm` and concatenating the `group_segments` lists of
all emitted groups in emission order yields exactly `S` — no segment is
lost, duplicated, or reordered — regardless of what the oracle answers
for any boundary decision (and for any safety limit and summarization
outcome). -/
theorem C1_order_preservation (segments : List Segment) (objective : String)
    (belongsAns : Nat → Bool) (sumAns : Nat → OracleOutcome) (maxSeg : Nat) :
    joinedSegs (group_segments_with_llm segments objective belongsAns sumAns maxSeg) =
      segments := by
  cases segments with
  | nil => rfl
  | cons s0 rest =>
      exact groupLoop_joined objective belongsAns sumAns maxSeg rest 1 [s0] 0 (by simp)

/-- Claim C2: for every input sequence and every sequence of oracle
answers, every group emitted by the grouper contains at least 1 and at
most `maxSeg` segments (`max_segments_per_group`, default 15), for any
positive limit — in particular the limit holds even when the oracle always
answers that the next segment belongs, because the safety-limit check
precedes the oracle boundary check. -/
theorem C2_group_size_bounds (segments : List Segment) (objective : String)
    (belongsAns : Nat → Bool) (sumAns : Nat → OracleOutcome) (maxSeg : Nat)
    (hmax : 1 ≤ maxSeg) :
    ∀ g ∈ group_segments_with_llm segments objective belongsAns sumAns maxSeg,
      1 ≤ g.group_segments.length ∧ g.group_segments.length ≤ maxSeg := by
  intro g hg
  cases segments with
  | nil => exact absurd hg (List.not_mem_nil g)
  | cons s0 rest =>
      exact groupLoop_sizes objective belongsAns sumAns maxSeg hmax rest 1 [s0] 0
        (by simp) (by simpa using hmax) g hg

/-- Witness for C2 at a concrete run: the single group produced from
`[segA]` with limit 15 satisfies the bounds. -/
theorem C2_group_size_bounds_witness :
    1 ≤ 15 ∧ (1 ≤ gW.group_segments.length ∧ gW.group_segments.length ≤ 15) :=
  ⟨by decide,
   C2_group_size_bounds [segA] "objective" (fun _ => true) (fun _ => OracleOutcome.exn) 15
     (by decide) gW (by decide)⟩

/-- Claim C3: the boundary decision returns "belongs" iff the substring
`YES` (case-insensitively) appears anywhere in the trimmed oracle
response, and on any oracle failure (non-2xx status or exception) it
returns belongs = true. -/
theorem C3_boundary_decision :
    (∀ body : String,
        check_segment_belongs_to_group (OracleOutcome.ok body) = true ↔
          ContainsYesCI (pyStrip body)) ∧
    check_segment_belongs_to_group OracleOutcome.httpError = true ∧
    check_segment_belongs_to_group OracleOutcome.exn = true := by
  refine ⟨?_, rfl, rfl⟩
  intro body
  rw [ContainsYesCI]
  show listContains "YES".data ((pyStrip body).data.map Char.toUpper) = true ↔ _
  rw [listContains_iff, List.isInfix_map_iff]
  constructor
  · rintro ⟨l, hl, he⟩; exact ⟨l, hl, he.symm⟩
  · rintro ⟨y, hy, he⟩; exact ⟨y, hy, he.symm⟩

/-- Claim C4: a group of exactly one segment is summarized as that
segment's text verbatim, independently of the oracle (no oracle call is
made: the result does not depend on the oracle outcome), and every
emitted single-segment group's `group_summary` equals the sole segment's
text. -/
theorem C4_single_segment_shortcut :
    (∀ (seg : Segment) (objective : String) (r : OracleOutcome),
        summarize_group [seg] objective r = seg.text) ∧
    (∀ (segments : List Segment) (objective : String) (belongsAns : Nat → Bool)
        (sumAns : Nat → OracleOutcome) (maxSeg : Nat) (g : Group),
        g ∈ group_segments_with_llm segments objective belongsAns sumAns maxSeg →
        ∀ seg : Segment, g.group_segments = [seg] → g.group_summary = seg.text) := by
  constructor
  · intro seg objective r
    rfl
  · intro segments objective belongsAns sumAns maxSeg g hg seg hseg
    cases segments with
    | nil => exact absurd hg (List.not_mem_nil g)
    | cons s0 rest =>
        have hsum := groupLoop_summary objective belongsAns sumAns maxSeg rest 1 [s0] 0 g hg
        rw [hseg] at hsum
        rw [hsum]
        rfl

/-- Witness for C4 at a concrete run: the group emitted from the
one-segment input `[segA]` carries `segA.text` as its summary. -/
theorem C4_single_segment_shortcut_witness :
    summarize_group [segA] "objective" OracleOutcome.httpError = segA.text ∧
    gW.group_summary = segA.text :=
  ⟨C4_single_segment_shortcut.1 segA "objective" OracleOutcome.httpError,
   C4_single_segment_shortcut.2 [segA] "objective" (fun _ => true)
     (fun _ => OracleOutcome.exn) 15 gW (by decide) segA (by decide)⟩

/-- Counterexample to claim C5 as stated: when the batch oracle call
returns HTTP 200 with a payload that parses to a same-length list of
strings, `classify_batch_with_ollama` returns those strings (lower-cased
and stripped) without validating them, so it can return a value outside
the fixed 13-label set. -/
theorem C5_counterexample :
    classify_batch_with_ollama 1 (BatchOutcome.parsed ["banana"])
        (fun _ => OracleOutcome.exn) = ["banana"] ∧
      "banana" ∉ CLASSIFICATION_LABELS := by
  constructor
  · decide
  · decide

/-- Claim C5 (amended): the one-at-a-time classifier never raises and
always returns a label of the fixed 13-label set, falling back to
`explanation` on any oracle failure (non-2xx status or exception) and on
a successful response whose normalized text neither equals a valid label
nor is related to one by substring containment in either direction; the
batch variant never raises and falls back to valid one-at-a-time labels
on any failure and on a shape mismatch (a parsed list whose length
differs from the segment count), but a successfully parsed same-length
list of strings is passed through lower-cased and stripped with no
validation against the label set. -/
theorem C5_classification_labels :
    (∀ r : OracleOutcome, classify_with_ollama r ∈ CLASSIFICATION_LABELS) ∧
    (classify_with_ollama OracleOutcome.httpError = "explanation" ∧
     classify_with_ollama OracleOutcome.exn = "explanation") ∧
    (∀ body : String,
        normalizeLabel body ∉ CLASSIFICATION_LABELS →
        (∀ valid ∈ CLASSIFICATION_LABELS,
            (pyContains valid (normalizeLabel body) ||
             pyContains (normalizeLabel body) valid) = false) →
        classify_with_ollama (OracleOutcome.ok body) = "explanation") ∧
    (∀ (n : Nat) (fallback : Nat → OracleOutcome) (labels : List String),
        labels.length = n →
        classify_batch_with_ollama n (BatchOutcome.parsed labels) fallback =
          labels.map (fun l => pyStrip (pyLower l))) ∧
    (∀ (n : Nat) (fallback : Nat → OracleOutcome) (labels : List String),
        labels.length ≠ n →
        classify_batch_with_ollama n (BatchOutcome.parsed labels) fallback =
          (List.range n).map (fun i => classify_with_ollama (fallback i))) ∧
    (∀ (n : Nat) (fallback : Nat → OracleOutcome) (labels : List String),
        labels.length ≠ n →
        ∀ lab ∈ classify_batch_with_ollama n (BatchOutcome.parsed labels) fallback,
          lab ∈ CLASSIFICATION_LABELS) ∧
    (∀ (n : Nat) (fallback : Nat → OracleOutcome),
        classify_batch_with_ollama n BatchOutcome.failed fallback =
          (List.range n).map (fun i => classify_with_ollama (fallback i))) ∧
    (∀ (n : Nat) (fallback : Nat → OracleOutcome),
        ∀ lab ∈ classify_batch_with_ollama n BatchOutcome.failed fallback,
          lab ∈ CLASSIFICATION_LABELS) := by
  refine ⟨classify_with_ollama_mem, ⟨rfl, rfl⟩, ?_, ?_, ?_, ?_, ?_, ?_⟩
  · intro body h1 h2
    rw [classify_with_ollama, if_neg h1]
    have hf : CLASSIFICATION_LABELS.find? (fun valid =>
        pyContains valid (normalizeLabel body) ||
        pyContains (normalizeLabel body) valid) = none := by
      rw [List.find?_eq_none]
      intro x hx
      simp [h2 x hx]
    rw [hf]
  · intro n fallback labels h
    rw [classify_batch_with_ollama, if_pos h]
  · intro n fallback labels h
    rw [classify_batch_with_ollama, if_neg h]
  · intro n fallback labels h lab hlab
    rw [classify_batch_with_ollama, if_neg h] at hlab
    rcases List.mem_map.mp hlab with ⟨i, _, rfl⟩
    exact classify_with_ollama_mem (fallback i)
  · intro n fallback
    rw [classify_batch_with_ollama]
  · intro n fallback lab hlab
    rw [classify_batch_with_ollama] at hlab
    rcases List.mem_map.mp hlab with ⟨i, _, rfl⟩
    exact classify_with_ollama_mem (fallback i)

/-- Witness for C5 (amended), exercising every hypothesis at concrete
inputs: an exception, a non-2xx status, a no-match response, a parsed
same-length list, a parsed wrong-length list, and a failed batch call. -/
theorem C5_classification_labels_witness :
    classify_with_ollama OracleOutcome.exn ∈ CLASSIFICATION_LABELS ∧
    classify_with_ollama OracleOutcome.httpError = "explanation" ∧
    classify_with_ollama (OracleOutcome.ok "gibberish zzz") = "explanation" ∧
    classify_batch_with_ollama 1 (BatchOutcome.parsed ["tip"])
        (fun _ => OracleOutcome.httpError) =
      ["tip"].map (fun l => pyStrip (pyLower l)) ∧
    classify_batch_with_ollama 2 (BatchOutcome.parsed ["tip"])
        (fun _ => OracleOutcome.exn) =
      (List.range 2).map (fun i =>
        classify_with_ollama ((fun _ => OracleOutcome.exn) i)) ∧
    "explanation" ∈ CLASSIFICATION_LABELS ∧
    classify_batch_with_ollama 1 BatchOutcome.failed
        (fun _ => OracleOutcome.httpError) =
      (List.range 1).map (fun i =>
        classify_with_ollama ((fun _ => OracleOutcome.httpError) i)) ∧
    "explanation" ∈ CLASSIFICATION_LABELS :=
  ⟨C5_classification_labels.1 OracleOutcome.exn,
   C5_classification_labels.2.1.1,
   C5_classification_labels.2.2.1 "gibberish zzz" (by decide) (by decide),
   C5_classification_labels.2.2.2.1 1 (fun _ => OracleOutcome.httpError) ["tip"] rfl,
   C5_classification_labels.2.2.2.2.1 2 (fun _ => OracleOutcome.exn) ["tip"] (by decide),
   C5_classification_labels.2.2.2.2.2.1 2 (fun _ => OracleOutcome.exn) ["tip"]
     (by decide) "explanation" (by decide),
   C5_classification_labels.2.2.2.2.2.2.1 1 (fun _ => OracleOutcome.httpError),
   C5_classification_labels.2.2.2.2.2.2.2 1 (fun _ => OracleOutcome.httpError)
     "explanation" (by decide)⟩

/-- Counterexample to claim C6 as stated: when the summarization oracle
responds successfully with an empty payload, the code returns the empty
string — it does not fall back to a truncation of the concatenated
segment text (which is non-empty here). -/
theorem C6_counterexample :
    summarize_group [segA, segB] "objective" (OracleOutcome.ok "") = "" ∧
      "Section covering: " ++ pyTake (combined_text [segA, segB]) 100 ++ "..." ≠ "" := by
  constructor
  · decide
  · decide

/-- Claim C6 (amended): summarization of a multi-segment group is total;
a non-2xx status yields the fixed non-empty string
`"Summary generation failed."`, an exception yields the non-empty
truncation fallback `"Section covering: " ++ combined_text[:100] ++ "..."`,
and a successful response is returned trimmed even when its payload is
empty (there is no empty-payload fallback). -/
theorem C6_failure_fallback (segs : List Segment) (objective : String)
    (h : segs.length ≠ 1) :
    summarize_group segs objective OracleOutcome.httpError = "Summary generation failed." ∧
    summarize_group segs objective OracleOutcome.httpError ≠ "" ∧
    summarize_group segs objective OracleOutcome.exn =
      "Section covering: " ++ pyTake (combined_text segs) 100 ++ "..." ∧
    summarize_group segs objective OracleOutcome.exn ≠ "" ∧
    summarize_group segs objective (OracleOutcome.ok "") = "" := by
  refine ⟨?_, ?_, ?_, ?_, ?_⟩
  · rw [summarize_group, if_neg h]
  · rw [summarize_group, if_neg h]
    decide
  · rw [summarize_group, if_neg h]
  · rw [summarize_group, if_neg h]
    intro hcontra
    have hl := congrArg String.length hcontra
    rw [String.length_append, String.length_append] at hl
    have h0 : "".length = 0 := rfl
    rw [h0] at hl
    have h1 : "Section covering: ".length = 0 := by omega
    exact absurd h1 (by decide)
  · rw [summarize_group, if_neg h]
    decide

/-- Witness for C6 (amended) at a concrete two-segment group. -/
theorem C6_failure_fallback_witness :
    [segA, segB].length ≠ 1 ∧
    (summarize_group [segA, segB] "objective" OracleOutcome.httpError =
        "Summary generation failed." ∧
      summarize_group [segA, segB] "objective" OracleOutcome.httpError ≠ "" ∧
      summarize_group [segA, segB] "objective" OracleOutcome.exn =
        "Section covering: " ++ pyTake (combined_text [segA, segB]) 100 ++ "..." ∧
      summarize_group [segA, segB] "objective" OracleOutcome.exn ≠ "" ∧
      summarize_group [segA, segB] "objective" (OracleOutcome.ok "") = "") :=
  ⟨by decide, C6_failure_fallback [segA, segB] "objective" (by decide)⟩

/-- Claim C7: across every run of the grouper, the `group_id` values of
the emitted groups are 0, 1, 2, … in strict emission order, with no gaps
and no repeats, including the terminally flushed final group. -/
theorem C7_id_monotonicity (segments : List Segment) (objective : String)
    (belongsAns : Nat → Bool) (sumAns : Nat → OracleOutcome) (maxSeg : Nat) :
    (group_segments_with_llm segments objective belongsAns sumAns maxSeg).map Group.group_id =
      List.range (group_segments_with_llm segments objective belongsAns sumAns maxSeg).length := by
  cases segments with
  | nil => rfl
  | cons s0 rest =>
      rw [List.range_eq_range']
      exact groupLoop_ids objective belongsAns sumAns maxSeg rest 1 [s0] 0 (by simp)

set_option maxRecDepth 40000 in
/-- Counterexample to claim C8 as stated: a successful oracle response of
301 words is returned as the group summary unchanged, so an
oracle-produced summary can exceed 300 words. -/
theorem C8_counterexample :
    ¬ countWords (summarize_group [segA, segB] "objective" (OracleOutcome.ok w301)) ≤ 300 := by
  decide

/-- Claim C8 (amended): for a multi-segment group whose summary request
succeeds, `summarize_group` returns the trimmed oracle response verbatim;
the 300-word limit is only requested in the prompt and not enforced, so
the summary length is whatever the oracle produced. -/
theorem C8_oracle_summary_passthrough (segs : List Segment) (objective body : String)
    (h : segs.length ≠ 1) :
    summarize_group segs objective (OracleOutcome.ok body) = pyStrip body := by
  rw [summarize_group, if_neg h]

/-- Witness for C8 (amended) at a concrete two-segment group. -/
theorem C8_oracle_summary_passthrough_witness :
    [segA, segB].length ≠ 1 ∧
    summarize_group [segA, segB] "objective" (OracleOutcome.ok " A short summary. ") =
      pyStrip " A short summary. " :=
  ⟨by decide,
   C8_oracle_summary_passthrough [segA, segB] "objective" " A short summary. " (by decide)⟩

/-- Claim C9: the segment filter is idempotent — running `filter_segments`
on its own output drops nothing. -/
theorem C9_filter_idempotence (segments : List Segment) :
    filter_segments (filter_segments segments) = filter_segments segments :=
  filterLoop_of_clean [] (filterLoop segments []) (filterLoop_clean segments [])

/-- Claim C10: on an empty input sequence the grouper returns an empty
group list, for every oracle behaviour (no oracle call can influence the
result) and every safety limit. -/
theorem C10_empty_input (objective : String) (belongsAns : Nat → Bool)
    (sumAns : Nat → OracleOutcome) (maxSeg : Nat) :
    group_segments_with_llm [] objective belongsAns sumAns maxSeg = [] := rfl

end MilesStone
